import Mathlib

/-
Verification of the claim/customer risk-scoring engine.

The development shallowly embeds the two analysis scripts:
  * the claim pipeline ("anomoly detection.py"): IQR outlier detection per
    policy type, per-claim composite risk scoring, anomaly reasons, report sort;
  * the customer pipeline ("claimpatternanalysis.py"): safe-division ratios,
    min-max feature normalization, weighted composite score, segmentation.

Pandas/numpy float arithmetic is modelled by the type `EF` below: a finite
rational, one of the two infinities, or NaN.  Signed zero is not modelled;
none of the computations verified here distinguish 0.0 from -0.0.
-/

/-- An IEEE-754-style extended value as produced by pandas float arithmetic:
a finite rational, positive infinity, negative infinity, or NaN. -/
inductive EF : Type where
  | fin (q : ℚ)
  | inf : EF
  | ninf : EF
  | nan : EF
deriving DecidableEq, Repr

/-- IEEE division as performed by pandas `/` on float columns:
`x / 0` is `±∞` for nonzero finite `x` and NaN for `0 / 0`;
finite over infinite is `0`; `∞ / ∞` is NaN; NaN propagates. -/
def EF.div : EF → EF → EF
  | nan, _ => nan
  | fin _, nan => nan
  | inf, nan => nan
  | ninf, nan => nan
  | fin a, fin b =>
      if b = 0 then (if a = 0 then nan else if 0 < a then inf else ninf)
      else fin (a / b)
  | fin _, inf => fin 0
  | fin _, ninf => fin 0
  | inf, fin b => if b < 0 then ninf else inf
  | ninf, fin b => if b < 0 then inf else ninf
  | inf, inf => nan
  | inf, ninf => nan
  | ninf, inf => nan
  | ninf, ninf => nan

/-- IEEE multiplication: `±∞ × 0` is NaN, NaN propagates, signs multiply. -/
def EF.mul : EF → EF → EF
  | nan, _ => nan
  | fin _, nan => nan
  | inf, nan => nan
  | ninf, nan => nan
  | fin a, fin b => fin (a * b)
  | fin a, inf => if a = 0 then nan else if 0 < a then inf else ninf
  | fin a, ninf => if a = 0 then nan else if 0 < a then ninf else inf
  | inf, fin b => if b = 0 then nan else if 0 < b then inf else ninf
  | ninf, fin b => if b = 0 then nan else if 0 < b then ninf else inf
  | inf, inf => inf
  | inf, ninf => ninf
  | ninf, inf => ninf
  | ninf, ninf => inf

/-- IEEE addition: `∞ + (−∞)` is NaN, NaN propagates. -/
def EF.add : EF → EF → EF
  | nan, _ => nan
  | fin _, nan => nan
  | inf, nan => nan
  | ninf, nan => nan
  | fin a, fin b => fin (a + b)
  | fin _, inf => inf
  | fin _, ninf => ninf
  | inf, fin _ => inf
  | ninf, fin _ => ninf
  | inf, inf => inf
  | inf, ninf => nan
  | ninf, inf => nan
  | ninf, ninf => ninf

/-- IEEE subtraction: `∞ − ∞` is NaN, NaN propagates. -/
def EF.sub : EF → EF → EF
  | nan, _ => nan
  | fin _, nan => nan
  | inf, nan => nan
  | ninf, nan => nan
  | fin a, fin b => fin (a - b)
  | fin _, inf => ninf
  | fin _, ninf => inf
  | inf, fin _ => inf
  | ninf, fin _ => ninf
  | inf, inf => nan
  | inf, ninf => inf
  | ninf, inf => ninf
  | ninf, ninf => nan

/-- The strict `<` of Python/numpy on floats: every comparison
involving NaN is false. -/
def EF.ltb : EF → EF → Bool
  | nan, _ => false
  | fin _, nan => false
  | inf, nan => false
  | ninf, nan => false
  | fin a, fin b => decide (a < b)
  | fin _, inf => true
  | fin _, ninf => false
  | inf, _ => false
  | ninf, ninf => false
  | ninf, _ => true

/-- Builtin Python `min(a, b)`: returns `b` when `b < a`, else `a`.
In particular `min(50, nan) = 50` and `min(50, inf) = 50`. -/
def pyMin (a b : EF) : EF := if EF.ltb b a then b else a

/-- Whether the value is finite. -/
def EF.isFin : EF → Bool
  | fin _ => true
  | _ => false

/-- The rational beneath a finite value (junk `0` on non-finite input;
only ever applied to provably finite values, see `safeDiv_isFin`). -/
def EF.finPart : EF → ℚ
  | fin q => q
  | _ => 0

/-
Claim pipeline ("anomoly detection.py").  After `preprocess_data` every row of
the joined table carries the fields below; dates are epoch day numbers, so the
pandas `(claim_date - start_date).dt.days` is plain integer subtraction.
-/

/-- One row of the joined claims table. -/
structure ClaimRow : Type where
  claim_id : String
  customer_id : String
  policy_type : String
  claim_amount : ℚ
  coverage_amount : ℚ
  claim_date : ℤ
  start_date : ℤ
deriving DecidableEq, Repr

/-- `Series.quantile(q)` with the default linear interpolation: with the
values sorted ascending and `h = q·(n−1)`, interpolate between the entries
at positions `⌊h⌋` and `⌈h⌉`. -/
def quantileLinear (xs : List ℚ) (q : ℚ) : ℚ :=
  let s := xs.insertionSort (fun a b => a ≤ b)
  let h := q * ((s.length : ℚ) - 1)
  let lo := s.getD (⌊h⌋).toNat 0
  let hi := s.getD (⌈h⌉).toNat 0
  lo + (h - (⌊h⌋ : ℚ)) * (hi - lo)

/-- The `is_outlier` flag `detect_outliers_iqr` assigns to row `r`: the IQR
fences are computed from the claim amounts of the rows sharing
`r.policy_type`, and `r` is flagged iff its amount is strictly outside them. -/
def outlierFlag (df : List ClaimRow) (r : ClaimRow) : Bool :=
  let subset := (df.filter (fun x => decide (x.policy_type = r.policy_type))).map
    (fun x => x.claim_amount)
  let q1 := quantileLinear subset (1/4)
  let q3 := quantileLinear subset (3/4)
  let iqr := q3 - q1
  let lower_bound := q1 - 3/2 * iqr
  let upper_bound := q3 + 3/2 * iqr
  decide (r.claim_amount < lower_bound) || decide (upper_bound < r.claim_amount)

/-- `detect_outliers_iqr`: every row of the input table, in order, paired with
its outlier flag. -/
def detect_outliers_iqr (df : List ClaimRow) : List (ClaimRow × Bool) :=
  df.map (fun r => (r, outlierFlag df r))

/-- `df["score_timing"]`: 30 points when the claim is within 30 days of the
policy start (including a claim predating the start), else 0. -/
def score_timing_of (days_since_start : ℤ) : ℚ :=
  if days_since_start < 30 then 30 else 0

/-- `((claim_counts - 1).clip(lower=0) * 5).clip(upper=20)` for one count. -/
def score_history_of (claim_count : ℤ) : ℤ :=
  min (max (claim_count - 1) 0 * 5) 20

/-- `df.groupby("customer_id")["claim_id"].transform("count")`: the number of
rows of the flagged table carrying the given customer id. -/
def claim_count_of (df : List (ClaimRow × Bool)) (cid : String) : ℤ :=
  ((df.filter (fun p => decide (p.1.customer_id = cid))).length : ℤ)

/-- The reason list built by the four `if` tests of `calculate_risk_scores`,
in source order. -/
def reason_list_of (score_history : ℤ) (score_coverage : EF) (score_timing : ℚ)
    (is_outlier : Bool) : List String :=
  (if 0 < score_history then ["Multiple claims history"] else []) ++
  (if EF.ltb (EF.fin 40) score_coverage then ["High claim-to-coverage ratio"] else []) ++
  (if 0 < score_timing then ["Early claim after policy start"] else []) ++
  (if is_outlier then ["Statistical outlier in claim amount"] else [])

/-- `", ".join(reason_list) if reason_list else "Normal"`. -/
def anomaly_reasons_of (l : List String) : String :=
  if l.isEmpty then "Normal" else String.intercalate ", " l

/-- The anomaly bonus of `calculate_risk_scores`:
`(r.count(",") + 1) * 5 if r != "Normal" else 0`. -/
def bonus_of (s : String) : ℚ :=
  if s = "Normal" then 0 else ((s.toList.count ',' : ℚ) + 1) * 5

/-- The scored record `calculate_risk_scores` produces for one row. -/
structure ScoredRow : Type where
  claim_id : String
  customer_id : String
  coverage_ratio : EF
  score_coverage : EF
  score_timing : ℚ
  score_history : ℤ
  is_outlier : Bool
  anomaly_reasons : String
  risk_score : EF
deriving DecidableEq, Repr

/-- The per-row computation of `calculate_risk_scores` on the flagged table
`df`: coverage ratio and its capped score, timing score, history score from
the customer's row count, the reason string, and the final risk score
(base sum plus the anomaly bonus). -/
def scoreRow (df : List (ClaimRow × Bool)) (p : ClaimRow × Bool) : ScoredRow :=
  let r := p.1
  let coverage_ratio := EF.div (EF.fin r.claim_amount) (EF.fin r.coverage_amount)
  let sc := pyMin (EF.fin 50) (EF.mul coverage_ratio (EF.fin 50))
  let st := score_timing_of (r.claim_date - r.start_date)
  let sh := score_history_of (claim_count_of df r.customer_id)
  let ar := anomaly_reasons_of (reason_list_of sh sc st p.2)
  { claim_id := r.claim_id
    customer_id := r.customer_id
    coverage_ratio := coverage_ratio
    score_coverage := sc
    score_timing := st
    score_history := sh
    is_outlier := p.2
    anomaly_reasons := ar
    risk_score := EF.add (EF.add (EF.add sc (EF.fin st)) (EF.fin (sh : ℚ)))
      (EF.fin (bonus_of ar)) }

/-- `calculate_risk_scores` over the whole flagged table. -/
def calculate_risk_scores (df : List (ClaimRow × Bool)) : List ScoredRow :=
  df.map (scoreRow df)

/-- One row of the claims report (`claim_id, risk_score, is_outlier,
anomaly_reasons`). -/
structure OutRow : Type where
  claim_id : String
  risk_score : EF
  is_outlier : Bool
  anomaly_reasons : String
deriving DecidableEq, Repr

/-- Projection of a scored row onto the report columns. -/
def outRow (s : ScoredRow) : OutRow :=
  { claim_id := s.claim_id
    risk_score := s.risk_score
    is_outlier := s.is_outlier
    anomaly_reasons := s.anomaly_reasons }

/-- The sort key `len(str(x).split(","))` of `process_claims`: the number of
comma-separated entries of the reasons string (1 for a "Normal" row, which per
the design carries the single reason "Normal"). -/
def reason_count_of (s : String) : ℕ := (s.splitOn ",").length

/-- One descending sort column over floats as ordered by the pandas
multi-key `sort_values` (NaN placed last under either direction):
`∞`, then finite values in decreasing order, then `−∞`, then NaN. -/
def EF.descLE : EF → EF → Bool
  | nan, nan => true
  | fin _, nan => true
  | inf, nan => true
  | ninf, nan => true
  | nan, _ => false
  | inf, _ => true
  | fin _, inf => false
  | ninf, inf => false
  | fin a, fin b => decide (b ≤ a)
  | fin _, ninf => true
  | ninf, fin _ => false
  | ninf, ninf => true

/-- The lexicographic comparator of
`sort_values(by=["reason_count", "risk_score"], ascending=[False, False])`:
`a` may precede `b`. -/
def reportLE (a b : OutRow) : Bool :=
  if reason_count_of a.anomaly_reasons = reason_count_of b.anomaly_reasons
  then EF.descLE a.risk_score b.risk_score
  else decide (reason_count_of b.anomaly_reasons < reason_count_of a.anomaly_reasons)

/-- The report sort.  The pandas multi-key sort is implemented by
`np.lexsort`, a stable sort, embedded here as a stable merge sort. -/
def sortReport (l : List OutRow) : List OutRow :=
  l.mergeSort reportLE

/-- The report rows of `process_claims` before sorting, in table order. -/
def reportRows (df : List ClaimRow) : List OutRow :=
  (calculate_risk_scores (detect_outliers_iqr df)).map outRow

/-- The sorted per-claim report of `process_claims`. -/
def claims_report (df : List ClaimRow) : List OutRow :=
  sortReport (reportRows df)

/-
Customer pipeline ("claimpatternanalysis.py").
-/

/-- The pandas idiom of `calculate_ltv_and_loss_ratio` and
`calculate_risk_score`:
`(num / den).replace([np.inf, -np.inf], 0).fillna(0)` on one entry. -/
def replaceNonFinite (x : EF) : EF :=
  match x with
  | EF.inf => EF.fin 0
  | EF.ninf => EF.fin 0
  | EF.nan => EF.fin 0
  | y => y

/-- Safe division: IEEE division with every non-finite result replaced by 0. -/
def safeDiv (a b : EF) : EF := replaceNonFinite (EF.div a b)

/-- One row of the customer-level analytical table produced by
`calculate_customer_features`.  Tenure may be NaN (a customer with no
parseable start date), hence `EF`; the premium and claim sums are sums of
float CSV columns and are likewise carried as `EF`. -/
structure CustomerRow : Type where
  customer_id : String
  total_claims : ℚ
  total_claim_amount : EF
  fraud_claims : ℚ
  annual_premium_sum : EF
  policy_tenure_years : EF
deriving DecidableEq, Repr

/-- `df['lifetime_value'] = annual_premium_sum - total_claim_amount`. -/
def lifetime_value_of (c : CustomerRow) : EF :=
  EF.sub c.annual_premium_sum c.total_claim_amount

/-- `df['loss_ratio']` of `calculate_ltv_and_loss_ratio`. -/
def loss_ratio_of (c : CustomerRow) : EF :=
  safeDiv c.total_claim_amount c.annual_premium_sum

/-- `df['claim_frequency_per_year']` of `calculate_risk_score`. -/
def claim_frequency_of (c : CustomerRow) : EF :=
  safeDiv (EF.fin c.total_claims) c.policy_tenure_years

/-- Minimum of a list of rationals (0 on the empty list; the scaler is only
ever fitted to the nonempty customer population). -/
def listMin : List ℚ → ℚ
  | [] => 0
  | x :: xs => xs.foldl min x

/-- Maximum of a list of rationals (0 on the empty list). -/
def listMax : List ℚ → ℚ
  | [] => 0
  | x :: xs => xs.foldl max x

/-- One feature column of `MinMaxScaler.fit_transform`:
`(x − min) / (max − min)`, sklearn replacing a zero range by 1
(`_handle_zeros_in_scale`), so a constant column scales to 0. -/
def minmaxScale (pop : List ℚ) (x : ℚ) : ℚ :=
  (x - listMin pop) /
    (if listMax pop - listMin pop = 0 then 1 else listMax pop - listMin pop)

/-- The weighted composite of `calculate_risk_score` for one customer against
the population `pop`: scaled loss ratio × 50 + scaled fraud count × 30 +
scaled claim frequency × 20.  The scaler inputs are the rationals beneath the
safe-division results, which are always finite (`safeDiv_isFin`). -/
def risk_score_of (pop : List CustomerRow) (c : CustomerRow) : ℚ :=
  minmaxScale (pop.map (fun d => (loss_ratio_of d).finPart)) (loss_ratio_of c).finPart * 50 +
  minmaxScale (pop.map (fun d => d.fraud_claims)) c.fraud_claims * 30 +
  minmaxScale (pop.map (fun d => (claim_frequency_of d).finPart))
    (claim_frequency_of c).finPart * 20

/-- `calculate_risk_score` over the whole customer table: one composite score
per customer, population-relative. -/
def calculate_risk_score (pop : List CustomerRow) : List ℚ :=
  pop.map (risk_score_of pop)

/-- `assign_segment` of `segment_customers`: the if/elif chain, first
match winning. -/
def assign_segment (lifetime_value risk_score : ℚ) : String :=
  if 0 ≤ lifetime_value ∧ risk_score ≤ 40 then "Premium Partner"
  else if 0 ≤ lifetime_value ∧ (40 < risk_score ∧ risk_score ≤ 60) then "Growth Prospect"
  else if lifetime_value < 0 ∧ 60 < risk_score then "Risk Management"
  else "Watch List"

/-- The segmentation rules exactly as the specification words them: an ordered
decision list of (predicate, segment) pairs. -/
def segmentRules : List ((ℚ → ℚ → Bool) × String) :=
  [ (fun l r => decide (0 ≤ l) && decide (r ≤ 40), "Premium Partner"),
    (fun l r => decide (0 ≤ l) && (decide (40 < r) && decide (r ≤ 60)), "Growth Prospect"),
    (fun l r => decide (l < 0) && decide (60 < r), "Risk Management") ]

/-- Evaluation of the decision list: the first matching rule wins, and
everything else falls to "Watch List". -/
def segmentSpec (l r : ℚ) : String :=
  match segmentRules.find? (fun p => p.1 l r) with
  | some p => p.2
  | none => "Watch List"

/-
Concrete fixtures used by counterexamples and witnesses.
-/

/-- A zero-coverage claim row (claim amount 100, coverage 0). -/
def c1row : ClaimRow :=
  { claim_id := "CL9", customer_id := "C9", policy_type := "Auto",
    claim_amount := 100, coverage_amount := 0, claim_date := 1000, start_date := 0 }

/-- A customer with no active premium and 500 of claims. -/
def cust500 : CustomerRow :=
  { customer_id := "CU1", total_claims := 2, total_claim_amount := EF.fin 500,
    fraud_claims := 0, annual_premium_sum := EF.fin 0,
    policy_tenure_years := EF.fin 3 }

/-- A single-customer population. -/
def cust4 : CustomerRow :=
  { customer_id := "CU4", total_claims := 1, total_claim_amount := EF.fin 100,
    fraud_claims := 1, annual_premium_sum := EF.fin 400,
    policy_tenure_years := EF.fin 2 }

/-- A claim row that is alone in its policy-type group. -/
def solo5 : ClaimRow :=
  { claim_id := "S1", customer_id := "C5", policy_type := "Marine",
    claim_amount := 700, coverage_amount := 1000, claim_date := 50, start_date := 0 }

/-- Rows for the group-locality witness: `home6` is the "Home" group shared by
both tables, `auto6` and `auto6x` are differing "Auto" rows. -/
def home6 : ClaimRow :=
  { claim_id := "H1", customer_id := "C6", policy_type := "Home",
    claim_amount := 200, coverage_amount := 1000, claim_date := 90, start_date := 0 }

def auto6 : ClaimRow :=
  { claim_id := "A1", customer_id := "C6", policy_type := "Auto",
    claim_amount := 5, coverage_amount := 1000, claim_date := 90, start_date := 0 }

def auto6x : ClaimRow :=
  { claim_id := "A2", customer_id := "C6", policy_type := "Auto",
    claim_amount := 999, coverage_amount := 1000, claim_date := 90, start_date := 0 }

/-- The worked example of the design document: claim 500 against coverage
1000 (ratio 0.5), 10 days after policy start, a customer with 3 claims. -/
def ex75 : ClaimRow :=
  { claim_id := "CL1", customer_id := "C1", policy_type := "Auto",
    claim_amount := 500, coverage_amount := 1000, claim_date := 10, start_date := 0 }

def ex75b : ClaimRow :=
  { claim_id := "CL2", customer_id := "C1", policy_type := "Auto",
    claim_amount := 500, coverage_amount := 1000, claim_date := 100, start_date := 0 }

def ex75c : ClaimRow :=
  { claim_id := "CL3", customer_id := "C1", policy_type := "Auto",
    claim_amount := 500, coverage_amount := 1000, claim_date := 200, start_date := 0 }

/-- The flagged table of the worked example. -/
def exdf75 : List (ClaimRow × Bool) := [(ex75, false), (ex75b, false), (ex75c, false)]

/-- A row with no applicable reason predicate: ratio 0.5 (score 25 ≤ 40),
40 days after start, a single claim, not an outlier. -/
def exNormal : ClaimRow :=
  { claim_id := "CN", customer_id := "CN1", policy_type := "Auto",
    claim_amount := 500, coverage_amount := 1000, claim_date := 40, start_date := 0 }

/-- Two equal-amount claims of one customer, for the history witness. -/
def ex8a : ClaimRow :=
  { claim_id := "E1", customer_id := "C8", policy_type := "Auto",
    claim_amount := 100, coverage_amount := 1000, claim_date := 90, start_date := 0 }

def ex8b : ClaimRow :=
  { claim_id := "E2", customer_id := "C8", policy_type := "Auto",
    claim_amount := 150, coverage_amount := 1000, claim_date := 95, start_date := 0 }

/-- Two rows tied on both report sort keys (both "Normal" with risk 5),
each alone in its policy-type group. -/
def tieA : ClaimRow :=
  { claim_id := "W1", customer_id := "ca", policy_type := "Auto",
    claim_amount := 100, coverage_amount := 1000, claim_date := 100, start_date := 0 }

def tieB : ClaimRow :=
  { claim_id := "W2", customer_id := "cb", policy_type := "Home",
    claim_amount := 100, coverage_amount := 1000, claim_date := 100, start_date := 0 }

/-- The report rows the tied table produces. -/
def tieOutA : OutRow :=
  { claim_id := "W1", risk_score := EF.fin 5, is_outlier := false,
    anomaly_reasons := "Normal" }

def tieOutB : OutRow :=
  { claim_id := "W2", risk_score := EF.fin 5, is_outlier := false,
    anomaly_reasons := "Normal" }

/-
Helper lemmas.
-/

theorem replaceNonFinite_isFin (x : EF) : (replaceNonFinite x).isFin = true := by
  cases x <;> rfl

theorem safeDiv_isFin (a b : EF) : (safeDiv a b).isFin = true :=
  replaceNonFinite_isFin _

theorem safeDiv_degenerate (a b : EF) (h : b = EF.fin 0 ∨ b.isFin = false) :
    safeDiv a b = EF.fin 0 := by
  rcases h with h | h
  · subst h
    cases a with
    | fin q =>
      simp only [safeDiv, EF.div, if_pos rfl]
      split_ifs <;> rfl
    | inf => rfl
    | ninf => rfl
    | nan => rfl
  · cases b with
    | fin q => simp [EF.isFin] at h
    | inf => cases a <;> rfl
    | ninf => cases a <;> rfl
    | nan => cases a <;> rfl

theorem foldl_min_le_init (a : ℚ) (l : List ℚ) : l.foldl min a ≤ a := by
  induction l generalizing a with
  | nil => exact le_refl a
  | cons y ys ih => exact le_trans (ih (min a y)) (min_le_left a y)

theorem foldl_min_le_mem {x : ℚ} {l : List ℚ} (a : ℚ) (hx : x ∈ l) :
    l.foldl min a ≤ x := by
  induction l generalizing a with
  | nil => cases hx
  | cons y ys ih =>
    rcases List.mem_cons.mp hx with h | h
    · subst h
      exact le_trans (foldl_min_le_init (min a x) ys) (min_le_right a x)
    · exact ih _ h

theorem init_le_foldl_max (a : ℚ) (l : List ℚ) : a ≤ l.foldl max a := by
  induction l generalizing a with
  | nil => exact le_refl a
  | cons y ys ih => exact le_trans (le_max_left a y) (ih (max a y))

theorem mem_le_foldl_max {x : ℚ} {l : List ℚ} (a : ℚ) (hx : x ∈ l) :
    x ≤ l.foldl max a := by
  induction l generalizing a with
  | nil => cases hx
  | cons y ys ih =>
    rcases List.mem_cons.mp hx with h | h
    · subst h
      exact le_trans (le_max_right a x) (init_le_foldl_max (max a x) ys)
    · exact ih _ h

theorem listMin_le_mem {x : ℚ} {l : List ℚ} (hx : x ∈ l) : listMin l ≤ x := by
  cases l with
  | nil => cases hx
  | cons y ys =>
    rcases List.mem_cons.mp hx with h | h
    · subst h; exact foldl_min_le_init _ _
    · exact foldl_min_le_mem _ h

theorem mem_le_listMax {x : ℚ} {l : List ℚ} (hx : x ∈ l) : x ≤ listMax l := by
  cases l with
  | nil => cases hx
  | cons y ys =>
    rcases List.mem_cons.mp hx with h | h
    · subst h; exact init_le_foldl_max _ _
    · exact mem_le_foldl_max _ h

theorem minmaxScale_bounds {pop : List ℚ} {x : ℚ} (hx : x ∈ pop) :
    0 ≤ minmaxScale pop x ∧ minmaxScale pop x ≤ 1 := by
  have h1 : listMin pop ≤ x := listMin_le_mem hx
  have h2 : x ≤ listMax pop := mem_le_listMax hx
  unfold minmaxScale
  by_cases h : listMax pop - listMin pop = 0
  · have hx0 : x = listMin pop := le_antisymm (by linarith) h1
    simp [h, hx0]
  · have hpos : 0 < listMax pop - listMin pop := lt_of_le_of_ne (by linarith) (Ne.symm h)
    rw [if_neg h]
    constructor
    · exact div_nonneg (by linarith) (le_of_lt hpos)
    · rw [div_le_one hpos]
      linarith

theorem minmaxScale_const {pop : List ℚ} {x : ℚ} (hx : x ∈ pop)
    (h : listMax pop = listMin pop) : minmaxScale pop x = 0 := by
  have h1 : listMin pop ≤ x := listMin_le_mem hx
  have h2 : x ≤ listMax pop := mem_le_listMax hx
  have hx0 : x = listMin pop := le_antisymm (h ▸ h2) h1
  simp [minmaxScale, h, hx0]

/-- Claim C2: customer segmentation is a total function of
(lifetime_value, risk_score) evaluated as the ordered decision list
`segmentRules` with first match winning and "Watch List" as default; on the
boundaries, risk_score 40 with lifetime_value 0 yields "Premium Partner" and
risk_score 60 with lifetime_value −1 yields "Watch List". -/
theorem assign_segment_decision_list :
    (∀ l r : ℚ, assign_segment l r = segmentSpec l r) ∧
    assign_segment 0 40 = "Premium Partner" ∧
    assign_segment (-1) 60 = "Watch List" := by
  refine ⟨fun l r => ?_, by norm_num [assign_segment], by norm_num [assign_segment]⟩
  by_cases hl : 0 ≤ l
  · by_cases h40 : r ≤ 40
    · simp [assign_segment, segmentSpec, segmentRules, List.find?, hl, h40]
    · by_cases h60 : r ≤ 60
      · simp [assign_segment, segmentSpec, segmentRules, List.find?, hl, h40, h60,
          not_le.mp h40, not_lt.mpr hl]
      · simp [assign_segment, segmentSpec, segmentRules, List.find?, hl, h40, h60,
          not_le.mp h40, not_le.mp h60, not_lt.mpr hl]
  · by_cases h60 : 60 < r
    · simp [assign_segment, segmentSpec, segmentRules, List.find?, hl, h60,
        not_le.mp hl]
    · simp [assign_segment, segmentSpec, segmentRules, List.find?, hl, h60,
        not_le.mp hl]

/-- Claim C3: in the customer scorer, loss_ratio and
claim_frequency_per_year resolve to 0 whenever their denominator is zero or
non-finite; no error is raised (`safeDiv` is total by construction). -/
theorem customer_ratios_safe_division (c : CustomerRow) :
    (c.annual_premium_sum = EF.fin 0 ∨ c.annual_premium_sum.isFin = false →
      loss_ratio_of c = EF.fin 0) ∧
    (c.policy_tenure_years = EF.fin 0 ∨ c.policy_tenure_years.isFin = false →
      claim_frequency_of c = EF.fin 0) :=
  ⟨fun h => safeDiv_degenerate _ _ h, fun h => safeDiv_degenerate _ _ h⟩

/-- Witness for C3: the customer with annual_premium_sum 0 and
total_claim_amount 500 gets loss_ratio 0. -/
theorem customer_ratios_safe_division_witness :
    cust500.annual_premium_sum = EF.fin 0 ∧ loss_ratio_of cust500 = EF.fin 0 :=
  ⟨rfl, (customer_ratios_safe_division cust500).1 (Or.inl rfl)⟩

/-- Claim C8: for every row of the scored table, `score_history` equals
`clamp((c − 1) × 5, 0, 20) = min(20, max(0, (c − 1) × 5))` where `c` is the
number of rows of the same customer, and all rows of one customer receive the
identical value. -/
theorem score_history_clamped (df : List (ClaimRow × Bool)) (p : ClaimRow × Bool) :
    (scoreRow df p).score_history =
      min 20 (max 0 ((claim_count_of df p.1.customer_id - 1) * 5)) ∧
    ∀ q : ClaimRow × Bool, q.1.customer_id = p.1.customer_id →
      (scoreRow df q).score_history = (scoreRow df p).score_history := by
  constructor
  · show score_history_of (claim_count_of df p.1.customer_id) =
      min 20 (max 0 ((claim_count_of df p.1.customer_id - 1) * 5))
    unfold score_history_of
    omega
  · intro q hq
    show score_history_of (claim_count_of df q.1.customer_id) =
      score_history_of (claim_count_of df p.1.customer_id)
    rw [hq]

/-- Witness for C8: the two claims of customer "C8" share the history score,
which is the clamped value at c = 2. -/
theorem score_history_clamped_witness :
    (ex8b, false).1.customer_id = (ex8a, false).1.customer_id ∧
    (scoreRow [(ex8a, false), (ex8b, false)] (ex8b, false)).score_history =
      (scoreRow [(ex8a, false), (ex8b, false)] (ex8a, false)).score_history ∧
    (scoreRow [(ex8a, false), (ex8b, false)] (ex8a, false)).score_history =
      min 20 (max 0 ((claim_count_of [(ex8a, false), (ex8b, false)]
        (ex8a, false).1.customer_id - 1) * 5)) :=
  ⟨rfl,
   (score_history_clamped [(ex8a, false), (ex8b, false)] (ex8a, false)).2
     (ex8b, false) rfl,
   (score_history_clamped [(ex8a, false), (ex8b, false)] (ex8a, false)).1⟩

/-- Claim C4: for each of the three customer risk features, min-max scaling
over the current population lands in [0,1] for every customer; a constant
feature column scales to 0 for every customer; consequently the weighted
composite risk score lies in [0,100]. -/
theorem customer_score_normalized (pop : List CustomerRow) (c : CustomerRow)
    (hc : c ∈ pop) :
    (0 ≤ minmaxScale (pop.map (fun d => (loss_ratio_of d).finPart))
        (loss_ratio_of c).finPart ∧
      minmaxScale (pop.map (fun d => (loss_ratio_of d).finPart))
        (loss_ratio_of c).finPart ≤ 1) ∧
    (0 ≤ minmaxScale (pop.map (fun d => d.fraud_claims)) c.fraud_claims ∧
      minmaxScale (pop.map (fun d => d.fraud_claims)) c.fraud_claims ≤ 1) ∧
    (0 ≤ minmaxScale (pop.map (fun d => (claim_frequency_of d).finPart))
        (claim_frequency_of c).finPart ∧
      minmaxScale (pop.map (fun d => (claim_frequency_of d).finPart))
        (claim_frequency_of c).finPart ≤ 1) ∧
    (listMax (pop.map (fun d => (loss_ratio_of d).finPart)) =
        listMin (pop.map (fun d => (loss_ratio_of d).finPart)) →
      minmaxScale (pop.map (fun d => (loss_ratio_of d).finPart))
        (loss_ratio_of c).finPart = 0) ∧
    (listMax (pop.map (fun d => d.fraud_claims)) =
        listMin (pop.map (fun d => d.fraud_claims)) →
      minmaxScale (pop.map (fun d => d.fraud_claims)) c.fraud_claims = 0) ∧
    (listMax (pop.map (fun d => (claim_frequency_of d).finPart)) =
        listMin (pop.map (fun d => (claim_frequency_of d).finPart)) →
      minmaxScale (pop.map (fun d => (claim_frequency_of d).finPart))
        (claim_frequency_of c).finPart = 0) ∧
    (0 ≤ risk_score_of pop c ∧ risk_score_of pop c ≤ 100) := by
  have m1 : (loss_ratio_of c).finPart ∈ pop.map (fun d => (loss_ratio_of d).finPart) :=
    List.mem_map_of_mem _ hc
  have m2 : c.fraud_claims ∈ pop.map (fun d => d.fraud_claims) :=
    List.mem_map_of_mem _ hc
  have m3 : (claim_frequency_of c).finPart ∈
      pop.map (fun d => (claim_frequency_of d).finPart) :=
    List.mem_map_of_mem _ hc
  have b1 := minmaxScale_bounds m1
  have b2 := minmaxScale_bounds m2
  have b3 := minmaxScale_bounds m3
  refine ⟨b1, b2, b3, fun h => minmaxScale_const m1 h, fun h => minmaxScale_const m2 h,
    fun h => minmaxScale_const m3 h, ?_, ?_⟩
  · unfold risk_score_of
    nlinarith [b1.1, b1.2, b2.1, b2.2, b3.1, b3.2]
  · unfold risk_score_of
    nlinarith [b1.1, b1.2, b2.1, b2.2, b3.1, b3.2]

/-- Witness for C4: a one-customer population; all features are constant, so
everything scales to 0 and the composite score is 0 ≤ · ≤ 100. -/
theorem customer_score_normalized_witness :
    cust4 ∈ [cust4] ∧ 0 ≤ risk_score_of [cust4] cust4 ∧
      risk_score_of [cust4] cust4 ≤ 100 :=
  ⟨List.mem_singleton.mpr rfl,
   (customer_score_normalized [cust4] cust4 (List.mem_singleton.mpr rfl)).2.2.2.2.2.2.1,
   (customer_score_normalized [cust4] cust4 (List.mem_singleton.mpr rfl)).2.2.2.2.2.2.2⟩

theorem scoreRow_coverage_ratio (df : List (ClaimRow × Bool)) (p : ClaimRow × Bool) :
    (scoreRow df p).coverage_ratio =
      EF.div (EF.fin p.1.claim_amount) (EF.fin p.1.coverage_amount) := rfl

theorem scoreRow_score_coverage (df : List (ClaimRow × Bool)) (p : ClaimRow × Bool) :
    (scoreRow df p).score_coverage =
      pyMin (EF.fin 50)
        (EF.mul (EF.div (EF.fin p.1.claim_amount) (EF.fin p.1.coverage_amount))
          (EF.fin 50)) := rfl

theorem scoreRow_score_timing (df : List (ClaimRow × Bool)) (p : ClaimRow × Bool) :
    (scoreRow df p).score_timing =
      score_timing_of (p.1.claim_date - p.1.start_date) := rfl

theorem scoreRow_score_history (df : List (ClaimRow × Bool)) (p : ClaimRow × Bool) :
    (scoreRow df p).score_history =
      score_history_of (claim_count_of df p.1.customer_id) := rfl

theorem scoreRow_is_outlier (df : List (ClaimRow × Bool)) (p : ClaimRow × Bool) :
    (scoreRow df p).is_outlier = p.2 := rfl

theorem scoreRow_anomaly_reasons (df : List (ClaimRow × Bool)) (p : ClaimRow × Bool) :
    (scoreRow df p).anomaly_reasons =
      anomaly_reasons_of (reason_list_of (scoreRow df p).score_history
        (scoreRow df p).score_coverage (scoreRow df p).score_timing
        (scoreRow df p).is_outlier) := rfl

theorem scoreRow_risk_score (df : List (ClaimRow × Bool)) (p : ClaimRow × Bool) :
    (scoreRow df p).risk_score =
      EF.add (EF.add (EF.add (scoreRow df p).score_coverage
          (EF.fin (scoreRow df p).score_timing))
        (EF.fin ((scoreRow df p).score_history : ℚ)))
        (EF.fin (bonus_of (scoreRow df p).anomaly_reasons)) := rfl

theorem EF.add_fin_fin (x : EF) (a b : ℚ) :
    EF.add (EF.add x (EF.fin a)) (EF.fin b) = EF.add x (EF.fin (a + b)) := by
  cases x <;> simp [EF.add, add_assoc]

/-- The comma-count bonus equals 5 per listed reason: none of the four tags
contains a comma and none equals "Normal". -/
theorem bonus_of_list (l : List String) (hne : l.isEmpty = false)
    (hnormal : String.intercalate ", " l ≠ "Normal")
    (hcount : (String.intercalate ", " l).toList.count ',' = l.length - 1)
    (hlen : 1 ≤ l.length) :
    bonus_of (anomaly_reasons_of l) = 5 * (l.length : ℚ) := by
  simp only [anomaly_reasons_of, hne, Bool.false_eq_true, if_false]
  simp only [bonus_of, if_neg hnormal, hcount]
  rw [Nat.cast_sub hlen]
  push_cast
  ring

/-- The comma-count bonus equals 5 per listed reason: none of the four tags
contains a comma and none equals "Normal". -/
theorem bonus_eq_five_mul_length (sh : ℤ) (sc : EF) (st : ℚ) (o : Bool) :
    bonus_of (anomaly_reasons_of (reason_list_of sh sc st o)) =
      5 * ((reason_list_of sh sc st o).length : ℚ) := by
  cases o <;> by_cases h1 : 0 < sh <;> by_cases h2 : EF.ltb (EF.fin 40) sc = true <;>
    by_cases h3 : 0 < st <;>
    simp only [reason_list_of, h1, h2, h3, if_true, if_false, ite_true, ite_false,
      if_pos, if_neg, Bool.false_eq_true, not_false_eq_true, List.nil_append,
      List.append_nil, List.cons_append, List.singleton_append] <;>
    first
      | exact bonus_of_list _ rfl (by decide) rfl (by decide)
      | simp [anomaly_reasons_of, bonus_of]

theorem reason_list_length_le (sh : ℤ) (sc : EF) (st : ℚ) (o : Bool) :
    (reason_list_of sh sc st o).length ≤ 4 := by
  unfold reason_list_of
  split_ifs <;> simp

/-- Claim C7: for every claim row the final risk_score equals
score_coverage + score_timing + score_history + 5 × (number of non-"Normal"
reasons, i.e. the length of the reason list); when no reason predicate
applies the reason string is the single tag "Normal" and the bonus is 0; on
the worked example (scores 25/30/10 with two reasons) the result is 75. -/
theorem risk_score_composition (df : List (ClaimRow × Bool)) (p : ClaimRow × Bool) :
    ((scoreRow df p).risk_score =
      EF.add (scoreRow df p).score_coverage
        (EF.fin ((scoreRow df p).score_timing + ((scoreRow df p).score_history : ℚ) +
          5 * ((reason_list_of (scoreRow df p).score_history
            (scoreRow df p).score_coverage (scoreRow df p).score_timing
            (scoreRow df p).is_outlier).length : ℚ)))) ∧
    (reason_list_of (scoreRow df p).score_history (scoreRow df p).score_coverage
        (scoreRow df p).score_timing (scoreRow df p).is_outlier = [] →
      (scoreRow df p).anomaly_reasons = "Normal" ∧
      bonus_of (scoreRow df p).anomaly_reasons = 0) ∧
    (scoreRow exdf75 (ex75, false)).score_coverage = EF.fin 25 ∧
    (scoreRow exdf75 (ex75, false)).score_timing = 30 ∧
    (scoreRow exdf75 (ex75, false)).score_history = 10 ∧
    (scoreRow exdf75 (ex75, false)).anomaly_reasons =
      "Multiple claims history, Early claim after policy start" ∧
    (scoreRow exdf75 (ex75, false)).risk_score = EF.fin 75 := by
  have hsc : (scoreRow exdf75 (ex75, false)).score_coverage = EF.fin 25 := by
    rw [scoreRow_score_coverage]
    norm_num [ex75, EF.div, EF.mul, pyMin, EF.ltb]
  have har : (scoreRow exdf75 (ex75, false)).anomaly_reasons =
      "Multiple claims history, Early claim after policy start" := by
    rw [scoreRow_anomaly_reasons]
    rw [hsc, show (scoreRow exdf75 (ex75, false)).score_timing = 30 from rfl,
      show (scoreRow exdf75 (ex75, false)).score_history = 10 from rfl,
      show (scoreRow exdf75 (ex75, false)).is_outlier = false from rfl]
    norm_num [reason_list_of, EF.ltb, anomaly_reasons_of]
    rfl
  refine ⟨?_, ?_, hsc, rfl, rfl, har, ?_⟩
  · rw [scoreRow_risk_score, scoreRow_anomaly_reasons, bonus_eq_five_mul_length,
      EF.add_fin_fin, EF.add_fin_fin, add_assoc]
  · intro h
    constructor
    · rw [scoreRow_anomaly_reasons, h]
      rfl
    · rw [scoreRow_anomaly_reasons, h]
      norm_num [anomaly_reasons_of, bonus_of]
  · rw [scoreRow_risk_score]
    rw [hsc, har, show (scoreRow exdf75 (ex75, false)).score_timing = 30 from rfl,
      show (scoreRow exdf75 (ex75, false)).score_history = 10 from rfl]
    simp only [bonus_of]
    rw [if_neg (by decide)]
    rw [show ("Multiple claims history, Early claim after policy start".toList.count ',')
      = 1 from rfl]
    norm_num [EF.add]

/-- Witness for C7: a row with no applicable reason predicate yields the
reason string "Normal" and a zero bonus. -/
theorem risk_score_composition_witness :
    reason_list_of (scoreRow [(exNormal, false)] (exNormal, false)).score_history
      (scoreRow [(exNormal, false)] (exNormal, false)).score_coverage
      (scoreRow [(exNormal, false)] (exNormal, false)).score_timing
      (scoreRow [(exNormal, false)] (exNormal, false)).is_outlier = [] ∧
    (scoreRow [(exNormal, false)] (exNormal, false)).anomaly_reasons = "Normal" ∧
    bonus_of (scoreRow [(exNormal, false)] (exNormal, false)).anomaly_reasons = 0 := by
  have h : reason_list_of (scoreRow [(exNormal, false)] (exNormal, false)).score_history
      (scoreRow [(exNormal, false)] (exNormal, false)).score_coverage
      (scoreRow [(exNormal, false)] (exNormal, false)).score_timing
      (scoreRow [(exNormal, false)] (exNormal, false)).is_outlier = [] := by
    rw [show (scoreRow [(exNormal, false)] (exNormal, false)).score_coverage =
        EF.fin 25 from by
      rw [scoreRow_score_coverage]
      norm_num [exNormal, EF.div, EF.mul, pyMin, EF.ltb]]
    rw [show (scoreRow [(exNormal, false)] (exNormal, false)).score_timing = 0 from rfl,
      show (scoreRow [(exNormal, false)] (exNormal, false)).score_history = 0 from rfl,
      show (scoreRow [(exNormal, false)] (exNormal, false)).is_outlier = false from rfl]
    norm_num [reason_list_of, EF.ltb]
  exact ⟨h, (risk_score_composition [(exNormal, false)] (exNormal, false)).2.1 h⟩

/-- Claim C10: for every claim row with nonnegative claim amount and positive
coverage, score_coverage lies in [0,50], score_timing is 0 or 30,
score_history lies in [0,20], the reason bonus is at most 20 (at most four
reason tags), and the final risk score is finite and lies in [0,120]. -/
theorem risk_score_range (df : List (ClaimRow × Bool)) (p : ClaimRow × Bool)
    (h1 : 0 ≤ p.1.claim_amount) (h2 : 0 < p.1.coverage_amount) :
    (∃ qc : ℚ, (scoreRow df p).score_coverage = EF.fin qc ∧ 0 ≤ qc ∧ qc ≤ 50) ∧
    ((scoreRow df p).score_timing = 0 ∨ (scoreRow df p).score_timing = 30) ∧
    (0 ≤ (scoreRow df p).score_history ∧ (scoreRow df p).score_history ≤ 20) ∧
    (0 ≤ bonus_of (scoreRow df p).anomaly_reasons ∧
      bonus_of (scoreRow df p).anomaly_reasons ≤ 20) ∧
    ∃ q : ℚ, (scoreRow df p).risk_score = EF.fin q ∧ 0 ≤ q ∧ q ≤ 120 := by
  have hb0 : p.1.coverage_amount ≠ 0 := ne_of_gt h2
  have hm0 : 0 ≤ p.1.claim_amount / p.1.coverage_amount * 50 :=
    mul_nonneg (div_nonneg h1 (le_of_lt h2)) (by norm_num)
  have hsc : (scoreRow df p).score_coverage =
      EF.fin (if p.1.claim_amount / p.1.coverage_amount * 50 < 50
        then p.1.claim_amount / p.1.coverage_amount * 50 else 50) := by
    rw [scoreRow_score_coverage]
    simp only [EF.div, if_neg hb0, EF.mul, pyMin, EF.ltb, decide_eq_true_eq]
    split_ifs <;> rfl
  have hqc : 0 ≤ (if p.1.claim_amount / p.1.coverage_amount * 50 < 50
        then p.1.claim_amount / p.1.coverage_amount * 50 else 50) ∧
      (if p.1.claim_amount / p.1.coverage_amount * 50 < 50
        then p.1.claim_amount / p.1.coverage_amount * 50 else 50) ≤ 50 := by
    split_ifs with h
    · exact ⟨hm0, le_of_lt h⟩
    · norm_num
  have hst : (scoreRow df p).score_timing = 0 ∨ (scoreRow df p).score_timing = 30 := by
    rw [scoreRow_score_timing]
    unfold score_timing_of
    split_ifs
    · exact Or.inr rfl
    · exact Or.inl rfl
  have hsh : 0 ≤ (scoreRow df p).score_history ∧ (scoreRow df p).score_history ≤ 20 := by
    rw [scoreRow_score_history]
    unfold score_history_of
    omega
  have hb : bonus_of (scoreRow df p).anomaly_reasons =
      5 * ((reason_list_of (scoreRow df p).score_history
        (scoreRow df p).score_coverage (scoreRow df p).score_timing
        (scoreRow df p).is_outlier).length : ℚ) := by
    rw [scoreRow_anomaly_reasons, bonus_eq_five_mul_length]
  have hlen : ((reason_list_of (scoreRow df p).score_history
      (scoreRow df p).score_coverage (scoreRow df p).score_timing
      (scoreRow df p).is_outlier).length : ℚ) ≤ 4 := by
    exact_mod_cast reason_list_length_le _ _ _ _
  have hlen0 : (0:ℚ) ≤ ((reason_list_of (scoreRow df p).score_history
      (scoreRow df p).score_coverage (scoreRow df p).score_timing
      (scoreRow df p).is_outlier).length : ℚ) := by positivity
  have hbb : 0 ≤ bonus_of (scoreRow df p).anomaly_reasons ∧
      bonus_of (scoreRow df p).anomaly_reasons ≤ 20 := by
    rw [hb]
    constructor
    · linarith
    · linarith
  refine ⟨⟨_, hsc, hqc.1, hqc.2⟩, hst, hsh, hbb, ?_⟩
  have hshq0 : (0:ℚ) ≤ ((scoreRow df p).score_history : ℚ) := by
    exact_mod_cast hsh.1
  have hshq20 : ((scoreRow df p).score_history : ℚ) ≤ 20 := by
    exact_mod_cast hsh.2
  have hst0 : 0 ≤ (scoreRow df p).score_timing ∧ (scoreRow df p).score_timing ≤ 30 := by
    rcases hst with h | h <;> rw [h] <;> norm_num
  rw [scoreRow_risk_score, hsc]
  simp only [EF.add]
  refine ⟨_, rfl, ?_, ?_⟩
  · have := hbb.1
    have := hqc.1
    linarith [hst0.1, hshq0]
  · have := hbb.2
    have := hqc.2
    linarith [hst0.2, hshq20]

/-- Witness for C10: the worked-example row has claim amount 500 ≥ 0 and
coverage 1000 > 0, and its risk score is finite in [0,120]. -/
theorem risk_score_range_witness :
    0 ≤ (ex75, false).1.claim_amount ∧ 0 < (ex75, false).1.coverage_amount ∧
    ∃ q : ℚ, (scoreRow exdf75 (ex75, false)).risk_score = EF.fin q ∧
      0 ≤ q ∧ q ≤ 120 :=
  ⟨by norm_num [ex75], by norm_num [ex75],
   (risk_score_range exdf75 (ex75, false) (by norm_num [ex75])
     (by norm_num [ex75])).2.2.2.2⟩

theorem quantileLinear_singleton (v q : ℚ) : quantileLinear [v] q = v := by
  unfold quantileLinear
  simp [List.insertionSort, List.orderedInsert]

/-- Claim C5: a claim whose policy-type group contains exactly one claim is
never flagged: Q1 = Q3 = the single value, the IQR is 0, the fences equal the
value, and flagging requires being strictly outside them. -/
theorem single_claim_group_not_flagged (df : List ClaimRow) (p : ClaimRow × Bool)
    (hp : p ∈ detect_outliers_iqr df)
    (hlen : (df.filter (fun x =>
      decide (x.policy_type = p.1.policy_type))).length = 1) :
    p.2 = false := by
  rcases List.mem_map.mp hp with ⟨r, hr, heq⟩
  subst heq
  dsimp only at hlen ⊢
  have hrf : r ∈ df.filter (fun x => decide (x.policy_type = r.policy_type)) :=
    List.mem_filter.mpr ⟨hr, by simp⟩
  obtain ⟨x, hx⟩ := List.length_eq_one.mp hlen
  rw [hx] at hrf
  have hxr : x = r := (List.mem_singleton.mp hrf).symm
  rw [hxr] at hx
  unfold outlierFlag
  rw [hx]
  simp [quantileLinear_singleton]

/-- Witness for C5: a one-row table; its single row is alone in its group and
is not flagged. -/
theorem single_claim_group_not_flagged_witness :
    (solo5, false) ∈ detect_outliers_iqr [solo5] ∧
    (([solo5] : List ClaimRow).filter (fun x =>
      decide (x.policy_type = (solo5, false).1.policy_type))).length = 1 ∧
    (solo5, false).2 = false := by
  have hof : outlierFlag [solo5] solo5 = false := by
    unfold outlierFlag
    simp [quantileLinear_singleton]
  have hmem : (solo5, false) ∈ detect_outliers_iqr [solo5] := by
    unfold detect_outliers_iqr
    simp [hof]
  have hl : (([solo5] : List ClaimRow).filter (fun x =>
      decide (x.policy_type = (solo5, false).1.policy_type))).length = 1 := by
    simp
  exact ⟨hmem, hl, single_claim_group_not_flagged [solo5] (solo5, false) hmem hl⟩

/-- Claim C6: the outlier flag is group-local.  If two tables agree (as lists)
on the rows of a given policy type, then every row of that policy type gets
the same flag from `detect_outliers_iqr` over either table; a row's flag
never depends on claims of other policy types. -/
theorem outlier_flag_group_local (t1 t2 : List ClaimRow) (pt : String)
    (h : t1.filter (fun x => decide (x.policy_type = pt)) =
      t2.filter (fun x => decide (x.policy_type = pt))) :
    ∀ r : ClaimRow, r.policy_type = pt → outlierFlag t1 r = outlierFlag t2 r := by
  intro r hr
  unfold outlierFlag
  simp only [hr, h]

/-- Witness for C6: two tables share their "Home" group but differ in the
"Auto" group; the "Home" row is flagged identically over both. -/
theorem outlier_flag_group_local_witness :
    ([home6, auto6].filter (fun x => decide (x.policy_type = "Home")) =
      [home6, auto6x].filter (fun x => decide (x.policy_type = "Home"))) ∧
    home6.policy_type = "Home" ∧
    outlierFlag [home6, auto6] home6 = outlierFlag [home6, auto6x] home6 := by
  have hfil : [home6, auto6].filter (fun x => decide (x.policy_type = "Home")) =
      [home6, auto6x].filter (fun x => decide (x.policy_type = "Home")) := by
    simp [home6, auto6, auto6x]
  exact ⟨hfil, rfl,
    outlier_flag_group_local [home6, auto6] [home6, auto6x] "Home" hfil home6 rfl⟩

/-- Counterexample to claim C1 as stated: scoring a table containing a
zero-coverage claim row does not fail; the pandas division silently yields an
infinite coverage ratio and the row still receives a risk score (55 here:
capped coverage score 50 plus a 5-point reason bonus). -/
theorem zero_coverage_not_fatal :
    c1row.coverage_amount = 0 ∧
    (calculate_risk_scores (detect_outliers_iqr [c1row])).map
      (fun s => (s.coverage_ratio, s.risk_score)) = [(EF.inf, EF.fin 55)] := by
  have hof : outlierFlag [c1row] c1row = false := by
    unfold outlierFlag
    simp [quantileLinear_singleton]
  have hdet : detect_outliers_iqr [c1row] = [(c1row, false)] := by
    unfold detect_outliers_iqr
    simp [hof]
  have hcr : (scoreRow [(c1row, false)] (c1row, false)).coverage_ratio = EF.inf := by
    rw [scoreRow_coverage_ratio]
    norm_num [c1row, EF.div]
  have hsc : (scoreRow [(c1row, false)] (c1row, false)).score_coverage = EF.fin 50 := by
    rw [scoreRow_score_coverage]
    norm_num [c1row, EF.div, EF.mul, pyMin, EF.ltb]
  have har : (scoreRow [(c1row, false)] (c1row, false)).anomaly_reasons =
      "High claim-to-coverage ratio" := by
    rw [scoreRow_anomaly_reasons, hsc,
      show (scoreRow [(c1row, false)] (c1row, false)).score_timing = 0 from rfl,
      show (scoreRow [(c1row, false)] (c1row, false)).score_history = 0 from rfl,
      show (scoreRow [(c1row, false)] (c1row, false)).is_outlier = false from rfl]
    norm_num [reason_list_of, EF.ltb, anomaly_reasons_of]
    rfl
  have hrs : (scoreRow [(c1row, false)] (c1row, false)).risk_score = EF.fin 55 := by
    rw [scoreRow_risk_score, hsc, har,
      show (scoreRow [(c1row, false)] (c1row, false)).score_timing = 0 from rfl,
      show (scoreRow [(c1row, false)] (c1row, false)).score_history = 0 from rfl]
    simp only [bonus_of]
    rw [if_neg (by decide)]
    rw [show ("High claim-to-coverage ratio".toList.count ',') = 0 from rfl]
    norm_num [EF.add]
  refine ⟨rfl, ?_⟩
  rw [hdet]
  unfold calculate_risk_scores
  simp [hcr, hrs]

/-- Amended claim C1: for a claim row with coverage 0 and positive claim
amount, the scorer does not raise; the coverage ratio is `+∞`, the coverage
score is capped to 50 by `min(50, ·)`, and the row still receives a finite
risk score. -/
theorem zero_coverage_scored (df : List (ClaimRow × Bool)) (p : ClaimRow × Bool)
    (h0 : p.1.coverage_amount = 0) (hpos : 0 < p.1.claim_amount) :
    (scoreRow df p).coverage_ratio = EF.inf ∧
    (scoreRow df p).score_coverage = EF.fin 50 ∧
    ∃ q : ℚ, (scoreRow df p).risk_score = EF.fin q := by
  have hcr : (scoreRow df p).coverage_ratio = EF.inf := by
    rw [scoreRow_coverage_ratio, h0]
    norm_num [EF.div, ne_of_gt hpos, hpos]
  have hsc : (scoreRow df p).score_coverage = EF.fin 50 := by
    rw [scoreRow_score_coverage, h0]
    norm_num [EF.div, EF.mul, pyMin, EF.ltb, ne_of_gt hpos, hpos]
  refine ⟨hcr, hsc, ?_⟩
  rw [scoreRow_risk_score, hsc]
  simp only [EF.add]
  exact ⟨_, rfl⟩

/-- Witness for the amended C1 at the concrete zero-coverage row. -/
theorem zero_coverage_scored_witness :
    (c1row, false).1.coverage_amount = 0 ∧ 0 < (c1row, false).1.claim_amount ∧
    ((scoreRow [(c1row, false)] (c1row, false)).coverage_ratio = EF.inf ∧
      (scoreRow [(c1row, false)] (c1row, false)).score_coverage = EF.fin 50 ∧
      ∃ q : ℚ, (scoreRow [(c1row, false)] (c1row, false)).risk_score = EF.fin q) :=
  ⟨rfl, by norm_num [c1row],
   zero_coverage_scored [(c1row, false)] (c1row, false) rfl (by norm_num [c1row])⟩

theorem EF.descLE_refl (x : EF) : EF.descLE x x = true := by
  cases x <;> simp [EF.descLE]

theorem EF.descLE_total (x y : EF) : EF.descLE x y || EF.descLE y x := by
  cases x <;> cases y <;> simp [EF.descLE, le_total]

theorem EF.descLE_trans (x y z : EF) (h1 : EF.descLE x y) (h2 : EF.descLE y z) :
    EF.descLE x z := by
  cases x <;> cases y <;> cases z <;> simp_all [EF.descLE]
  all_goals linarith

theorem reportLE_total (a b : OutRow) : reportLE a b || reportLE b a := by
  unfold reportLE
  by_cases h : reason_count_of a.anomaly_reasons = reason_count_of b.anomaly_reasons
  · simp [h, EF.descLE_total]
  · simp [h, Ne.symm h]

theorem reportLE_trans (a b c : OutRow) (h1 : reportLE a b) (h2 : reportLE b c) :
    reportLE a c := by
  unfold reportLE at *
  by_cases hab : reason_count_of a.anomaly_reasons = reason_count_of b.anomaly_reasons <;>
    by_cases hbc : reason_count_of b.anomaly_reasons = reason_count_of c.anomaly_reasons <;>
    by_cases hac : reason_count_of a.anomaly_reasons = reason_count_of c.anomaly_reasons <;>
    simp_all <;>
    first
      | exact EF.descLE_trans _ _ _ h1 h2
      | omega

/-- Claim C9: the per-claim report is sorted by the number of comma-separated
reason entries descending, then by risk score descending (with the pandas
NaN-last float column order), it is a permutation of the unsorted report
rows, and the sort is stable: rows tied on both keys keep their original
relative order (any tied pair that is a sublist of the input rows is still a
sublist of the report). -/
theorem report_sorted_and_stable (df : List ClaimRow) :
    (claims_report df).Pairwise (fun a b =>
      reason_count_of b.anomaly_reasons < reason_count_of a.anomaly_reasons ∨
      (reason_count_of a.anomaly_reasons = reason_count_of b.anomaly_reasons ∧
        EF.descLE a.risk_score b.risk_score = true)) ∧
    List.Perm (claims_report df) (reportRows df) ∧
    ∀ a b : OutRow,
      reason_count_of a.anomaly_reasons = reason_count_of b.anomaly_reasons →
      a.risk_score = b.risk_score →
      List.Sublist [a, b] (reportRows df) →
      List.Sublist [a, b] (claims_report df) := by
  refine ⟨?_, ?_, ?_⟩
  · have hs := List.sorted_mergeSort
      (fun a b c h1 h2 => reportLE_trans a b c h1 h2)
      (fun a b => reportLE_total a b) (reportRows df)
    refine List.Pairwise.imp ?_ hs
    intro a b hab
    unfold reportLE at hab
    by_cases h : reason_count_of a.anomaly_reasons = reason_count_of b.anomaly_reasons
    · right
      refine ⟨h, ?_⟩
      simpa [h] using hab
    · left
      simpa [h] using hab
  · exact List.mergeSort_perm (reportRows df) reportLE
  · intro a b hk hr hsub
    have hab : reportLE a b := by
      unfold reportLE
      simp [hk, hr, EF.descLE_refl]
    exact List.pair_sublist_mergeSort
      (fun a b c h1 h2 => reportLE_trans a b c h1 h2)
      (fun a b => reportLE_total a b) hab hsub

/-- Witness for C9: a table of two rows tied on both sort keys; their pair
survives in order into the sorted report. -/
theorem report_sorted_and_stable_witness :
    reason_count_of tieOutA.anomaly_reasons = reason_count_of tieOutB.anomaly_reasons ∧
    tieOutA.risk_score = tieOutB.risk_score ∧
    List.Sublist [tieOutA, tieOutB] (claims_report [tieA, tieB]) := by
  have hofA : outlierFlag [tieA, tieB] tieA = false := by
    unfold outlierFlag
    norm_num [tieA, tieB, quantileLinear_singleton, List.filter_cons, List.filter_nil,
      show ("Home" : String) ≠ "Auto" from by decide]
  have hofB : outlierFlag [tieA, tieB] tieB = false := by
    unfold outlierFlag
    norm_num [tieA, tieB, quantileLinear_singleton, List.filter_cons, List.filter_nil,
      show ("Auto" : String) ≠ "Home" from by decide]
  have hdet : detect_outliers_iqr [tieA, tieB] = [(tieA, false), (tieB, false)] := by
    unfold detect_outliers_iqr
    simp [hofA, hofB]
  have hscA : (scoreRow [(tieA, false), (tieB, false)] (tieA, false)).score_coverage =
      EF.fin 5 := by
    rw [scoreRow_score_coverage]
    norm_num [tieA, EF.div, EF.mul, pyMin, EF.ltb]
  have harA : (scoreRow [(tieA, false), (tieB, false)] (tieA, false)).anomaly_reasons =
      "Normal" := by
    rw [scoreRow_anomaly_reasons, hscA,
      show (scoreRow [(tieA, false), (tieB, false)] (tieA, false)).score_timing = 0 from rfl,
      show (scoreRow [(tieA, false), (tieB, false)] (tieA, false)).score_history = 0 from rfl,
      show (scoreRow [(tieA, false), (tieB, false)] (tieA, false)).is_outlier = false from rfl]
    norm_num [reason_list_of, EF.ltb, anomaly_reasons_of]
  have hrsA : (scoreRow [(tieA, false), (tieB, false)] (tieA, false)).risk_score =
      EF.fin 5 := by
    rw [scoreRow_risk_score, hscA, harA,
      show (scoreRow [(tieA, false), (tieB, false)] (tieA, false)).score_timing = 0 from rfl,
      show (scoreRow [(tieA, false), (tieB, false)] (tieA, false)).score_history = 0 from rfl]
    norm_num [bonus_of, EF.add]
  have hscB : (scoreRow [(tieA, false), (tieB, false)] (tieB, false)).score_coverage =
      EF.fin 5 := by
    rw [scoreRow_score_coverage]
    norm_num [tieB, EF.div, EF.mul, pyMin, EF.ltb]
  have harB : (scoreRow [(tieA, false), (tieB, false)] (tieB, false)).anomaly_reasons =
      "Normal" := by
    rw [scoreRow_anomaly_reasons, hscB,
      show (scoreRow [(tieA, false), (tieB, false)] (tieB, false)).score_timing = 0 from rfl,
      show (scoreRow [(tieA, false), (tieB, false)] (tieB, false)).score_history = 0 from rfl,
      show (scoreRow [(tieA, false), (tieB, false)] (tieB, false)).is_outlier = false from rfl]
    norm_num [reason_list_of, EF.ltb, anomaly_reasons_of]
  have hrsB : (scoreRow [(tieA, false), (tieB, false)] (tieB, false)).risk_score =
      EF.fin 5 := by
    rw [scoreRow_risk_score, hscB, harB,
      show (scoreRow [(tieA, false), (tieB, false)] (tieB, false)).score_timing = 0 from rfl,
      show (scoreRow [(tieA, false), (tieB, false)] (tieB, false)).score_history = 0 from rfl]
    norm_num [bonus_of, EF.add]
  have e1 : outRow (scoreRow [(tieA, false), (tieB, false)] (tieA, false)) = tieOutA := by
    unfold outRow tieOutA
    rw [show (scoreRow [(tieA, false), (tieB, false)] (tieA, false)).claim_id = "W1" from rfl,
      hrsA, show (scoreRow [(tieA, false), (tieB, false)] (tieA, false)).is_outlier = false
        from rfl, harA]
  have e2 : outRow (scoreRow [(tieA, false), (tieB, false)] (tieB, false)) = tieOutB := by
    unfold outRow tieOutB
    rw [show (scoreRow [(tieA, false), (tieB, false)] (tieB, false)).claim_id = "W2" from rfl,
      hrsB, show (scoreRow [(tieA, false), (tieB, false)] (tieB, false)).is_outlier = false
        from rfl, harB]
  have hrows : reportRows [tieA, tieB] = [tieOutA, tieOutB] := by
    unfold reportRows
    rw [hdet]
    unfold calculate_risk_scores
    simp only [List.map]
    rw [e1, e2]
  refine ⟨rfl, rfl, ?_⟩
  exact (report_sorted_and_stable [tieA, tieB]).2.2 tieOutA tieOutB rfl rfl
    (hrows ▸ List.Sublist.refl [tieOutA, tieOutB])
